import Mathlib

/-!
Verification of the Transform stage of the Social-Media ETL pipeline
(`src/etl.py`, with the duplicated labeling utilities of `src/utils.py`).

Python strings are modelled as `List Char`; Python values appearing in raw
records as the inductive `Value`; records (dicts) as insertion-ordered
association lists with Python's update semantics.  Machine floats are
modelled as exact rationals (documented at `parseFloatV`); the special
values `inf`/`-inf`/`nan` that `float()` can produce are modelled
explicitly because `int()` raises an uncaught `OverflowError` on them.
-/

set_option maxRecDepth 40000

namespace SocialETL

/-! ## Python string primitives on `List Char` -/

/-- Whitespace for Python `str.split()` / `str.strip()` (ASCII class plus
the no-break space; other rare Unicode spaces are not modelled). -/
def isWs (c : Char) : Bool :=
  c = ' ' || c = '\t' || c = '\n' || c = '\r' || c = '\x0b' || c = '\x0c' || c = '\u00A0'

/-- Predicate `leads pat s`: `s` starts with `pat`. -/
def leads : List Char → List Char → Bool
  | [], _ => true
  | _ :: _, [] => false
  | p :: ps, c :: cs => p = c && leads ps cs

/-- Predicate `occurs pat s`: `pat` occurs as a contiguous substring of `s`
(for nonempty `pat`; mirrors Python's `pat in s`). -/
def occurs (pat : List Char) : List Char → Bool
  | [] => leads pat []
  | c :: cs => leads pat (c :: cs) || occurs pat cs

/-- Fuel-driven model of Python `str.replace(pat, repl)`: left-to-right,
non-overlapping, the replacement text is not rescanned.  With
`fuel ≥ s.length` and nonempty `pat` the fuel never runs out. -/
def replFuel (pat repl : List Char) : Nat → List Char → List Char
  | 0, s => s
  | _ + 1, [] => []
  | fuel + 1, c :: cs =>
    if leads pat (c :: cs) then repl ++ replFuel pat repl fuel ((c :: cs).drop pat.length)
    else c :: replFuel pat repl fuel cs

/-- Python `s.replace(pat, repl)` (for nonempty `pat`). -/
def pyReplace (pat repl s : List Char) : List Char :=
  replFuel pat repl s.length s

/-- Maximal runs of characters satisfying `p`, accumulator-passing style;
models `re.findall` of a one-character-class `+` pattern and, with
`p = (¬ isWs ·)`, Python's `str.split()`. -/
def runsAux (p : Char → Bool) : List Char → List Char → List (List Char)
  | [], acc => if acc = [] then [] else [acc.reverse]
  | c :: cs, acc =>
    if p c then runsAux p cs (c :: acc)
    else if acc = [] then runsAux p cs []
    else acc.reverse :: runsAux p cs []

/-- Maximal runs of characters satisfying `p` in `s`. -/
def runsP (p : Char → Bool) (s : List Char) : List (List Char) :=
  runsAux p s []

/-- Python `str.split()` with no argument: maximal non-whitespace runs. -/
def pySplit (s : List Char) : List (List Char) :=
  runsP (fun c => !isWs c) s

/-- Python `' '.join(parts)`. -/
def pyJoin : List (List Char) → List Char
  | [] => []
  | [w] => w
  | w :: ws => w ++ ' ' :: pyJoin ws

/-- Model of `' '.join(s.split())`: collapse whitespace runs to single spaces. -/
def normWs (s : List Char) : List Char :=
  pyJoin (pySplit s)

/-- Python `str.strip()`: drop leading and trailing whitespace. -/
def pyStrip (s : List Char) : List Char :=
  ((s.dropWhile isWs).reverse.dropWhile isWs).reverse

/-- Python `s.split(sep)` for a one-character separator (keeps empties). -/
def splitOnChar (sep : Char) : List Char → List (List Char)
  | [] => [[]]
  | c :: cs =>
    if c = sep then [] :: splitOnChar sep cs
    else match splitOnChar sep cs with
      | [] => [[c]]
      | w :: ws => (c :: w) :: ws

/-- Python `sep.join(parts)` for a one-character separator. -/
def joinChar (sep : Char) : List (List Char) → List Char
  | [] => []
  | [w] => w
  | w :: ws => w ++ sep :: joinChar sep ws

/-- Python `str.lower()` (ASCII model; every string this system compares
against its lexicons/tables is ASCII). -/
def pyLower (s : List Char) : List Char :=
  s.map Char.toLower

/-! ## Text cleaning (`Transformer._clean_text`, etl.py lines 157-184) -/

/-- The six HTML-entity substitutions of `_clean_text`, in source order. -/
def entitySubs : List (List Char × List Char) :=
  [("&amp;".data, "&".data), ("&lt;".data, "<".data), ("&gt;".data, ">".data),
   ("&quot;".data, "\"".data), ("&#39;".data, "'".data), ("&#x200B;".data, [])]

/-- The `replacements` dict of `_clean_text`, in source (insertion) order:
smart quotes, dashes, zero-width characters, no-break space. -/
def unicodeSubs : List (List Char × List Char) :=
  [(['\u2018'], "'".data), (['\u2019'], "'".data),
   (['\u201C'], "\"".data), (['\u201D'], "\"".data),
   (['\u2013'], "-".data), (['\u2014'], "--".data),
   (['\u200B'], []), (['\uFEFF'], []),
   (['\u00A0'], " ".data)]

/-- Model of `Transformer._clean_text`: entity decoding, smart-punctuation
substitution, whitespace collapsing, strip.  Falsy (empty) input gives
the empty string. -/
def clean_text (text : List Char) : List Char :=
  if text = [] then []
  else
    let t := (entitySubs ++ unicodeSubs).foldl (fun s pr => pyReplace pr.1 pr.2 s) text
    pyStrip (normWs t)

/-! ## Text cleaning (`TextProcessor.clean`, utils.py lines 145-161) -/

/-- Table `TextProcessor.CHAR_REPLACEMENTS` in source (insertion) order.  The
replacement texts are the literal mojibake strings of the source. -/
def CHAR_REPLACEMENTS : List (List Char × List Char) :=
  [(['\u2122'], ['\u00E2', '\u201E', '\u00A2']), (['\u00A9'], ['\u00C2', '\u00A9']),
   (['\u00AE'], ['\u00C2', '\u00AE']),
   (['\u2018'], "'".data), (['\u2019'], "'".data),
   (['\u201C'], "\"".data), (['\u201D'], "\"".data),
   (['\u2013'], "-".data), (['\u2014'], "--".data),
   (['\u200B'], []), (['\uFEFF'], [])]

/-- Model of `TextProcessor.clean`: character replacements, whitespace
collapsing, strip. -/
def TextProcessor.clean (text : List Char) : List Char :=
  if text = [] then []
  else
    let t := CHAR_REPLACEMENTS.foldl (fun s pr => pyReplace pr.1 pr.2 s) text
    pyStrip (normWs t)

/-! ## Hashtag normalization (`Transformer._normalize_hashtags`) -/

/-- Model of `Transformer._normalize_hashtags`: split on comma, strip, lower-case,
drop tags of length ≤ 1, rejoin with commas. -/
def normalize_hashtags (hashtags : List Char) : List Char :=
  if hashtags = [] then []
  else
    let tags := (splitOnChar ',' hashtags).map (fun t => pyLower (pyStrip t))
    joinChar ',' (tags.filter (fun t => 1 < t.length))

/-! ## Sentiment (`Transformer._analyze_sentiment`, etl.py lines 239-269) -/

/-- ASCII model of the regex `\w` character class (the lexicons are ASCII,
so intersections with them are unaffected). -/
def isWordChar (c : Char) : Bool :=
  c.isAlphanum || c = '_'

/-- Model of `re.findall(r'\b\w+\b', s)`: the maximal word-character runs of `s`. -/
def findWords (s : List Char) : List (List Char) :=
  runsP isWordChar s

/-- Lexicon `Transformer.POSITIVE_WORDS`. -/
def POSITIVE_WORDS : List (List Char) :=
  ["love", "loved", "loving", "great", "amazing", "awesome", "excellent",
   "good", "best", "happy", "wonderful", "fantastic", "brilliant", "perfect",
   "beautiful", "incredible", "outstanding", "superb", "magnificent",
   "thank", "thanks", "grateful", "appreciate", "excited", "joy", "blessed",
   "recommend", "recommended", "favorite", "favourite", "impressive"].map String.data

/-- Lexicon `Transformer.NEGATIVE_WORDS`. -/
def NEGATIVE_WORDS : List (List Char) :=
  ["hate", "hated", "hating", "bad", "terrible", "awful", "worst", "horrible",
   "angry", "sad", "disappointed", "disappointing", "frustrating", "frustrated",
   "annoying", "annoyed", "useless", "waste", "poor", "pathetic", "disgusting",
   "ugly", "stupid", "boring", "fail", "failed", "failing", "sucks", "broken",
   "scam", "fake", "trash", "garbage", "nightmare", "disappoints"].map String.data

/-- Membership in `Transformer.EMOJI_PATTERN`'s character class (the union
of the six code-point ranges of the source regex). -/
def isEmojiChar (c : Char) : Bool :=
  (0x1F600 ≤ c.toNat && c.toNat ≤ 0x1F64F) ||
  (0x1F300 ≤ c.toNat && c.toNat ≤ 0x1F5FF) ||
  (0x1F680 ≤ c.toNat && c.toNat ≤ 0x1F6FF) ||
  (0x1F1E0 ≤ c.toNat && c.toNat ≤ 0x1F1FF) ||
  (0x2702 ≤ c.toNat && c.toNat ≤ 0x27B0) ||
  (0x24C2 ≤ c.toNat && c.toNat ≤ 0x1F251)

/-- Model of `EMOJI_PATTERN.findall(text)`: maximal runs of emoji-class characters. -/
def findEmojis (s : List Char) : List (List Char) :=
  runsP isEmojiChar s

/-- The `positive_emojis` literal of `_analyze_sentiment`. -/
def positive_emojis : List (List Char) :=
  ["😊", "😍", "❤️", "👍", "🎉", "💯", "🙏", "😁", "🔥", "💪"].map String.data

/-- The `negative_emojis` literal of `_analyze_sentiment`. -/
def negative_emojis : List (List Char) :=
  ["😢", "😡", "👎", "💔", "😤", "🤮", "😭", "😠", "🙄"].map String.data

/-- The `if emoji in positive_emojis: ... elif emoji in negative_emojis` loop
of `_analyze_sentiment`, folded over the found emoji runs. -/
def emojiTally (runs : List (List Char)) (pc nc : Nat) : Nat × Nat :=
  runs.foldl
    (fun pn r =>
      if r ∈ positive_emojis then (pn.1 + 1, pn.2)
      else if r ∈ negative_emojis then (pn.1, pn.2 + 1)
      else pn)
    (pc, nc)

/-- Model of `Transformer._analyze_sentiment`: lexicon hits on the de-duplicated
word set of the lower-cased text, plus emoji tallies on the original text,
compared ordinally. -/
def analyze_sentiment (text : List Char) : List Char :=
  if text = [] then "neutral".data
  else
    let ws := (findWords (pyLower text)).dedup
    let pc := (ws.filter (· ∈ POSITIVE_WORDS)).length
    let nc := (ws.filter (· ∈ NEGATIVE_WORDS)).length
    let counts := emojiTally (findEmojis text) pc nc
    if counts.2 < counts.1 then "positive".data
    else if counts.1 < counts.2 then "negative".data
    else "neutral".data

/-! ## Engagement (`Transformer._calculate_engagement`, etl.py 271-291,
and `DataLabeler.estimate_engagement_level`, utils.py 285-307) -/

/-- One row of `Transformer.ENGAGEMENT_THRESHOLDS`. -/
structure ThresholdsT where
  low : Int
  medium : Int
  high : Int
  viral : Int
deriving DecidableEq

/-- Table `Transformer.ENGAGEMENT_THRESHOLDS` (etl.py lines 65-70). -/
def ENGAGEMENT_THRESHOLDS : List (List Char × ThresholdsT) :=
  [("instagram".data, ⟨50, 500, 5000, 50000⟩),
   ("youtube".data, ⟨100, 1000, 10000, 100000⟩),
   ("twitter".data, ⟨10, 100, 1000, 10000⟩),
   ("reddit".data, ⟨10, 100, 1000, 10000⟩)]

/-- Model of `ENGAGEMENT_THRESHOLDS.get(platform, ENGAGEMENT_THRESHOLDS['twitter'])`. -/
def thresholdsFor (platform : List Char) : ThresholdsT :=
  match ENGAGEMENT_THRESHOLDS.find? (fun kv => kv.1 = platform) with
  | some kv => kv.2
  | Option.none => ⟨10, 100, 1000, 10000⟩

/-- Model of `Transformer._calculate_engagement`: score `likes + comments * 3`
against the platform's thresholds (unknown platform falls back to the
twitter row), boundary-inclusive cascade from viral down. -/
def calculate_engagement (likes comments : Int) (platform : List Char) : List Char :=
  let t := thresholdsFor platform
  let engagement_score := likes + comments * 3
  if t.viral ≤ engagement_score then "viral".data
  else if t.high ≤ engagement_score then "high".data
  else if t.medium ≤ engagement_score then "medium".data
  else "low".data

/-- One row of the threshold dict local to
`DataLabeler.estimate_engagement_level` (it has no `low` key). -/
structure ThresholdsU where
  medium : Int
  high : Int
  viral : Int
deriving DecidableEq

/-- The `thresholds` dict of `DataLabeler.estimate_engagement_level`
(utils.py lines 291-296). -/
def labelerThresholds : List (List Char × ThresholdsU) :=
  [("instagram".data, ⟨100, 1000, 10000⟩),
   ("youtube".data, ⟨1000, 10000, 100000⟩),
   ("twitter".data, ⟨50, 500, 5000⟩),
   ("reddit".data, ⟨100, 1000, 10000⟩)]

/-- Model of `DataLabeler.estimate_engagement_level`: score `likes + comments * 2`
against its own thresholds (twitter fallback), boundary-inclusive cascade. -/
def DataLabeler.estimate_engagement_level (likes comments : Int) (platform : List Char) :
    List Char :=
  let levels :=
    match labelerThresholds.find? (fun kv => kv.1 = platform) with
    | some kv => kv.2
    | Option.none => ⟨50, 500, 5000⟩
  let total_engagement := likes + comments * 2
  if levels.viral ≤ total_engagement then "viral".data
  else if levels.high ≤ total_engagement then "high".data
  else if levels.medium ≤ total_engagement then "medium".data
  else "low".data

/-! ## Python values and records -/

/-- Model of a naive or timezone-aware `datetime.datetime` value
(`tz` is the UTC offset in minutes). -/
structure PyDatetime where
  year : Nat
  month : Nat
  day : Nat
  hour : Nat
  minute : Nat
  second : Nat
  micro : Nat
  tz : Option Int
deriving DecidableEq

/-- The loosely-typed values a raw-record field can carry. -/
inductive Value where
  | none
  | vbool (b : Bool)
  | vint (n : Int)
  | vfloat (q : ℚ)
  | vstr (s : List Char)
  | vdt (d : PyDatetime)
deriving DecidableEq

/-- Python truthiness of a `Value` (`if not x`). -/
def truthy : Value → Bool
  | Value.none => false
  | Value.vbool b => b
  | Value.vint n => n ≠ 0
  | Value.vfloat q => q ≠ 0
  | Value.vstr s => s ≠ []
  | Value.vdt _ => true

/-- A Python dict with string keys, as an insertion-ordered association
list (`dict.copy()` plus item assignment). -/
abbrev RecordD := List (String × Value)

/-- Dict lookup: `post['k']` / `post.get('k')` without default. -/
def getOpt : RecordD → String → Option Value
  | [], _ => Option.none
  | (k', v') :: rest, k => if k' = k then some v' else getOpt rest k

/-- Dict lookup with default: `post.get('k', d)`. -/
def getD (r : RecordD) (k : String) (d : Value) : Value :=
  (getOpt r k).getD d

/-- Item assignment `r['k'] = v`: updates in place, appends new keys. -/
def setk : RecordD → String → Value → RecordD
  | [], k, v => [(k, v)]
  | (k', v') :: rest, k, v =>
    if k' = k then (k', v) :: rest else (k', v') :: setk rest k v

/-! ## Numeric coercion (`Transformer._safe_int`, etl.py 197-204) -/

/-- The value `float(s)` can produce: a finite number (kept exactly as
sign, decimal mantissa and power-of-ten exponent — the only divergence
from IEEE doubles, which round and overflow; exponent-overflow to
infinity and `_`-separators are not modelled), an infinity, or a NaN.
`fin neg mant exp` stands for `(-1)^neg * mant * 10^exp`. -/
inductive FloatV where
  | fin (neg : Bool) (mant : Nat) (exp : Int)
  | inf
  | ninf
  | nanv
deriving DecidableEq

/-- Numeric value of a list of decimal digits. -/
def digitsVal (ds : List Char) : Nat :=
  ds.foldl (fun n c => n * 10 + (c.toNat - 48)) 0

/-- Split a string into its leading run of decimal digits and the rest. -/
def takeDigits (s : List Char) : List Char × List Char :=
  (s.takeWhile Char.isDigit, s.dropWhile Char.isDigit)

/-- Truncation toward zero (Python `int()`) of the exact value
`(-1)^neg * mant * 10^exp`. -/
def truncFin (neg : Bool) (mant : Nat) (exp : Int) : Int :=
  let n : Nat :=
    if 0 ≤ exp then mant * 10 ^ exp.toNat else mant / 10 ^ (-exp).toNat
  if neg then -(n : Int) else (n : Int)

/-- Model of Python `float(s)`: optional surrounding whitespace, optional
sign, `inf`/`infinity`/`nan` words (case-insensitive) or a decimal literal
with optional fraction and exponent.  `Option.none` models `ValueError`. -/
def parseFloatV (s0 : List Char) : Option FloatV :=
  let s1 := pyStrip s0
  let sign := match s1 with
    | '+' :: t => (false, t)
    | '-' :: t => (true, t)
    | t => (false, t)
  let neg := sign.1
  let body := sign.2
  let lb := pyLower body
  if lb = "inf".data ∨ lb = "infinity".data then
    some (if neg then FloatV.ninf else FloatV.inf)
  else if lb = "nan".data then some FloatV.nanv
  else
    let ar := takeDigits body
    let fr := match ar.2 with
      | '.' :: t => takeDigits t
      | t => ([], t)
    if ar.1 = [] ∧ fr.1 = [] then Option.none
    else
      let mant := digitsVal (ar.1 ++ fr.1)
      let scale : Int := (fr.1.length : Int)
      match fr.2 with
      | [] => some (FloatV.fin neg mant (-scale))
      | c :: t =>
        if c = 'e' ∨ c = 'E' then
          let esign := match t with
            | '+' :: u => (false, u)
            | '-' :: u => (true, u)
            | u => (false, u)
          let ed := takeDigits esign.2
          if ed.1 = [] ∨ ed.2 ≠ [] then Option.none
          else
            let e : Int := if esign.1 then -(digitsVal ed.1 : Int) else (digitsVal ed.1 : Int)
            some (FloatV.fin neg mant (e - scale))
        else Option.none

/-- Python `int()` truncation toward zero of a rational. -/
def ratTrunc (q : ℚ) : Int :=
  if 0 ≤ q then Rat.floor q else Rat.ceil q

/-- Model of `Transformer._safe_int`.  The result is `Option.none` exactly when the
Python code raises: `int(float('inf'))` raises `OverflowError`, which the
`except (ValueError, TypeError)` clause does not catch.  All other paths
return `some`: `None`/`''` give 0 before the `try`, strings go through
comma-stripping and `float` parsing with failures (including `nan`, whose
`int()` raises the caught `ValueError`) resolved to 0, numbers truncate,
and non-numeric objects (`str()` then `float` fails) give 0. -/
def safe_int : Value → Option Int
  | Value.none => some 0
  | Value.vbool _ => some 0
  | Value.vint n => some n
  | Value.vfloat q => some (ratTrunc q)
  | Value.vdt _ => some 0
  | Value.vstr s =>
    if s = [] then some 0
    else
      match parseFloatV (s.filter (· ≠ ',')) with
      | Option.none => some 0
      | some (FloatV.fin neg mant exp) => some (truncFin neg mant exp)
      | some FloatV.nanv => some 0
      | some FloatV.inf => Option.none
      | some FloatV.ninf => Option.none

/-! ## Timestamp normalization (`Transformer._normalize_timestamp`,
etl.py 206-237) -/

/-- Zero-padded decimal rendering of a natural number. -/
def padNat (width n : Nat) : List Char :=
  let ds := Nat.toDigits 10 n
  List.replicate (width - ds.length) '0' ++ ds

/-- Model of `datetime.isoformat()`: date, `T`, time, microseconds only when
nonzero, UTC offset as `±HH:MM` when timezone-aware. -/
def isoformat (d : PyDatetime) : List Char :=
  padNat 4 d.year ++ '-' :: padNat 2 d.month ++ '-' :: padNat 2 d.day ++
  'T' :: padNat 2 d.hour ++ ':' :: padNat 2 d.minute ++ ':' :: padNat 2 d.second ++
  (if d.micro = 0 then [] else '.' :: padNat 6 d.micro) ++
  (match d.tz with
   | Option.none => []
   | some off =>
     (if 0 ≤ off then '+' else '-') ::
       padNat 2 (off.natAbs / 60) ++ ':' :: padNat 2 (off.natAbs % 60))

/-- Read exactly `n` decimal digits. -/
def readDigits : Nat → List Char → Option (Nat × List Char)
  | 0, s => some (0, s)
  | n + 1, c :: cs =>
    if c.isDigit then
      (readDigits n cs).map (fun pr => ((c.toNat - 48) * 10 ^ n + pr.1, pr.2))
    else Option.none
  | _ + 1, [] => Option.none

/-- Read a literal character. -/
def readChar (c : Char) : List Char → Option (List Char)
  | c' :: cs => if c' = c then some cs else Option.none
  | [] => Option.none

/-- Read `%f`: one to six digits, scaled to microseconds. -/
def readFrac (s : List Char) : Option (Nat × List Char) :=
  let d := takeDigits s
  if d.1 = [] ∨ 6 < d.1.length then Option.none
  else some (digitsVal d.1 * 10 ^ (6 - d.1.length), d.2)

/-- Read `%z`: `Z` or `±HH[:]MM`, as an offset in minutes (the second- and
microsecond-precision offsets `strptime` also accepts are not modelled). -/
def readTz : List Char → Option (Int × List Char)
  | 'Z' :: cs => some (0, cs)
  | c :: cs =>
    if c = '+' ∨ c = '-' then
      match readDigits 2 cs with
      | some (h, rest) =>
        let rest2 := match rest with
          | ':' :: r => r
          | r => r
        match readDigits 2 rest2 with
        | some (m, rest3) =>
          let off : Int := (h * 60 + m : Nat)
          some (if c = '-' then -off else off, rest3)
        | Option.none => Option.none
      | Option.none => Option.none
    else Option.none
  | [] => Option.none

/-- Days in a month, with Gregorian leap years (what `datetime` validates
the day field against). -/
def daysInMonth (y m : Nat) : Nat :=
  if m = 2 then
    if y % 4 = 0 ∧ (y % 100 ≠ 0 ∨ y % 400 = 0) then 29 else 28
  else if m = 4 ∨ m = 6 ∨ m = 9 ∨ m = 11 then 30
  else 31

/-- Range validation done by the `datetime` constructor that `strptime`
builds its result with. -/
def mkDatetime (y mo d h mi s us : Nat) (tz : Option Int) : Option PyDatetime :=
  if 1 ≤ mo ∧ mo ≤ 12 ∧ 1 ≤ d ∧ d ≤ daysInMonth y mo ∧ 1 ≤ y ∧ y ≤ 9999 ∧
     h ≤ 23 ∧ mi ≤ 59 ∧ s ≤ 59 then
    some ⟨y, mo, d, h, mi, s, us, tz⟩
  else Option.none

/-- Parse the common `%Y-%m-%d` prefix (strict four/two-digit fields; the
unpadded forms `strptime` tolerates are not modelled). -/
def readDate (s : List Char) : Option (Nat × Nat × Nat × List Char) := do
  let (y, s) ← readDigits 4 s
  let s ← readChar '-' s
  let (mo, s) ← readDigits 2 s
  let s ← readChar '-' s
  let (d, s) ← readDigits 2 s
  pure (y, mo, d, s)

/-- Parse `%H:%M:%S` after the date separator. -/
def readTime (s : List Char) : Option (Nat × Nat × Nat × List Char) := do
  let (h, s) ← readDigits 2 s
  let s ← readChar ':' s
  let (mi, s) ← readDigits 2 s
  let s ← readChar ':' s
  let (sec, s) ← readDigits 2 s
  pure (h, mi, sec, s)

/-- Model of `datetime.strptime(ts, fmt)` for the six formats of
`_normalize_timestamp`, selected by date separator, fractional part,
and suffix kind (`none`: nothing, `some false`: literal `Z`,
`some true`: `%z`). -/
def strptime6 (sep : Char) (frac : Bool) (suffix : Option Bool) (ts : List Char) :
    Option PyDatetime := do
  let (y, mo, d, s) ← readDate ts
  let s ← readChar sep s
  let (h, mi, sec, s) ← readTime s
  let (us, s) ← if frac then do
      let s ← readChar '.' s
      readFrac s
    else pure (0, s)
  match suffix with
  | Option.none => if s = [] then mkDatetime y mo d h mi sec us Option.none else Option.none
  | some false =>
    match s with
    | ['Z'] => mkDatetime y mo d h mi sec us Option.none
    | _ => Option.none
  | some true => do
    let (off, s) ← readTz s
    if s = [] then mkDatetime y mo d h mi sec us (some off) else Option.none

/-- The `formats` list of `_normalize_timestamp`, tried in source order on
the original string (the `ts = timestamp.replace('Z', '+00:00')` local of
the source is computed but never used). -/
def tryFormats (ts : List Char) : Option PyDatetime :=
  strptime6 'T' true (some false) ts <|>
  strptime6 'T' false (some false) ts <|>
  strptime6 'T' false (some true) ts <|>
  strptime6 'T' true (some true) ts <|>
  strptime6 'T' false Option.none ts <|>
  strptime6 ' ' false Option.none ts

/-- Model of `Transformer._normalize_timestamp`: falsy input (including the empty
string) gives `None`; a datetime serializes to ISO-8601; a nonempty string
takes the first matching format's serialization or is returned unchanged;
any other truthy value gives `None`. -/
def normalize_timestamp (timestamp : Value) : Value :=
  if truthy timestamp = false then Value.none
  else
    match timestamp with
    | Value.vdt d => Value.vstr (isoformat d)
    | Value.vstr s =>
      (match tryFormats s with
       | some d => Value.vstr (isoformat d)
       | Option.none => Value.vstr s)
    | _ => Value.none

/-! ## Mention and URL counts (etl.py lines 149-150) -/

/-- Number of `re.findall(r'@\w+', s)` matches (each match is `@` plus a
nonempty word-character run, which cannot itself contain `@`, so a
character scan counts exactly the regex matches). -/
def count_mentions : List Char → Nat
  | [] => 0
  | '@' :: c :: cs =>
    if isWordChar c then 1 + count_mentions cs else count_mentions (c :: cs)
  | _ :: cs => count_mentions cs

/-- Try to match `https?://\S+` or `www\.\S+` at the head of `l`; on
success return the rest of the string after the maximal match. -/
def urlAt (l : List Char) : Option (List Char) :=
  let tryPre : List Char → Option (List Char) := fun p =>
    if leads p l then
      let rest := l.drop p.length
      let run := rest.takeWhile (fun c => !isWs c)
      if run = [] then Option.none else some (rest.dropWhile (fun c => !isWs c))
    else Option.none
  tryPre "http://".data <|> tryPre "https://".data <|> tryPre "www.".data

/-- Fuel-driven scan counting URL matches left to right. -/
def countUrlsFuel : Nat → List Char → Nat
  | 0, _ => 0
  | _ + 1, [] => 0
  | fuel + 1, l@(_ :: cs) =>
    match urlAt l with
    | some rest => 1 + countUrlsFuel fuel rest
    | Option.none => countUrlsFuel fuel cs

/-- Number of `re.findall(r'https?://\S+|www\.\S+', s)` matches. -/
def count_urls (s : List Char) : Nat :=
  countUrlsFuel s.length s

/-! ## The per-record pipeline (`Transformer._transform_single`,
etl.py 113-155) and the batch loop (`Transformer.transform`, 96-111) -/

/-- Model of `_clean_text(v)` on a raw field value: a falsy argument returns
the empty string before any string method is touched; a truthy string is
cleaned; a truthy non-string raises (`AttributeError`), modelled as
`Option.none`. -/
def cleanTextV (v : Value) : Option (List Char) :=
  if truthy v = false then some []
  else
    match v with
    | Value.vstr s => some (clean_text s)
    | _ => Option.none

/-- Model of `_normalize_hashtags(v)` on a raw field value, same raising model. -/
def hashtagsV (v : Value) : Option (List Char) :=
  if truthy v = false then some []
  else
    match v with
    | Value.vstr s => some (normalize_hashtags s)
    | _ => Option.none

/-- Argument check of `re.findall(pattern, v)`: any non-string raises
`TypeError` (even a falsy one), modelled as `Option.none`. -/
def strArgV : Value → Option (List Char)
  | Value.vstr s => some s
  | _ => Option.none

/-- Outcome of `_transform_single` under the `try` of `transform`:
an uncaught exception, a `None` return (missing `post_id`), or a record. -/
inductive TResult where
  | exc
  | skipped
  | ok (r : RecordD)
deriving DecidableEq

/-- The mutable `Transformer.stats` dict: `processed`, `errors`, and the
nested sentiment tally. -/
structure Stats where
  processed : Nat
  errors : Nat
  positive : Nat
  negative : Nat
  neutral : Nat
deriving DecidableEq

/-- The `stats` dict as initialized in `Transformer.__init__`. -/
def initStats : Stats :=
  ⟨0, 0, 0, 0, 0⟩

/-- Model of `self.stats['sentiment'][label] += 1`. -/
def bumpSent (st : Stats) (label : List Char) : Stats :=
  if label = "positive".data then ⟨st.processed, st.errors, st.positive + 1, st.negative, st.neutral⟩
  else if label = "negative".data then ⟨st.processed, st.errors, st.positive, st.negative + 1, st.neutral⟩
  else ⟨st.processed, st.errors, st.positive, st.negative, st.neutral + 1⟩

/-- The record built by the successful path of `_transform_single`:
`post.copy()` followed by the fourteen field assignments in source order.
`now` is the `datetime.now().isoformat()` processing stamp, passed
explicitly to keep the embedding deterministic. -/
def buildRecord (post : RecordD) (now txt tags : List Char)
    (likes comments retweets views : Int) (mc uc : Nat) : RecordD :=
  let r := setk post "post_text" (Value.vstr txt)
  let r := setk r "hashtags" (Value.vstr tags)
  let r := setk r "likes" (Value.vint likes)
  let r := setk r "comments" (Value.vint comments)
  let r := setk r "retweet_count" (Value.vint retweets)
  let r := setk r "view_count" (Value.vint views)
  let r := setk r "timestamp" (normalize_timestamp (getD post "timestamp" Value.none))
  let r := setk r "sentiment_label" (Value.vstr (analyze_sentiment txt))
  let r := setk r "engagement_level"
    (Value.vstr (calculate_engagement likes comments
      (match getD post "platform" (Value.vstr "unknown".data) with
       | Value.vstr p => p
       | _ => "<non-string>".data)))
  let r := setk r "word_count" (Value.vint (pySplit txt).length)
  let r := setk r "has_media" (Value.vbool (truthy (getD post "image_url" Value.none)))
  let r := setk r "mention_count" (Value.vint mc)
  let r := setk r "url_count" (Value.vint uc)
  setk r "processed_at" (Value.vstr now)

/-- Model of `Transformer._transform_single`.  Steps in source order: reject on
falsy `post_id`; clean text; normalize hashtags; coerce the four numeric
fields; normalize the timestamp; tally sentiment into the stats; classify
engagement; count words/mentions/URLs on the original text; stamp
`processed_at`.  Exceptions (`TResult.exc`) happen exactly where the
Python code raises: cleaning or hashtag-normalizing a truthy non-string,
an uncaught `OverflowError` from `_safe_int`, or `re.findall` on a
non-string — the last one after the sentiment tally has already been
recorded, as in the source. -/
def transform_single (post : RecordD) (now : List Char) (st : Stats) :
    TResult × Stats :=
  if truthy (getD post "post_id" Value.none) = false then (TResult.skipped, st)
  else
    match cleanTextV (getD post "post_text" (Value.vstr [])) with
    | Option.none => (TResult.exc, st)
    | some txt =>
      match hashtagsV (getD post "hashtags" (Value.vstr [])) with
      | Option.none => (TResult.exc, st)
      | some tags =>
        match safe_int (getD post "likes" (Value.vint 0)),
              safe_int (getD post "comments" (Value.vint 0)),
              safe_int (getD post "retweet_count" (Value.vint 0)),
              safe_int (getD post "view_count" (Value.vint 0)) with
        | some likes, some comments, some retweets, some views =>
          let st1 := bumpSent st (analyze_sentiment txt)
          (match strArgV (getD post "post_text" (Value.vstr [])) with
           | some orig =>
             (TResult.ok (buildRecord post now txt tags likes comments retweets views
                (count_mentions orig) (count_urls orig)), st1)
           | Option.none => (TResult.exc, st1))
        | _, _, _, _ => (TResult.exc, st)

/-- Model of `Transformer.transform`: apply `_transform_single` to each post,
collecting truthy results and incrementing `processed`; a `None` result is
dropped silently; an exception increments `errors` and continues. -/
def transform (posts : List RecordD) (now : List Char) (st : Stats) :
    List RecordD × Stats :=
  match posts with
  | [] => ([], st)
  | p :: rest =>
    match transform_single p now st with
    | (TResult.exc, st') =>
      transform rest now ⟨st'.processed, st'.errors + 1, st'.positive, st'.negative, st'.neutral⟩
    | (TResult.skipped, st') => transform rest now st'
    | (TResult.ok r, st') =>
      let tail := transform rest now
        ⟨st'.processed + 1, st'.errors, st'.positive, st'.negative, st'.neutral⟩
      (r :: tail.1, tail.2)

/-- Extract the record of a successful `TResult` (empty record otherwise);
used only to state concrete evaluations. -/
def okRec : TResult → RecordD
  | TResult.ok r => r
  | _ => []

/-- Successful-outcome test for a `TResult`. -/
def isOk : TResult → Bool
  | TResult.ok _ => true
  | _ => false

/-! ## Record-access lemmas -/

theorem getOpt_setk_self (r : RecordD) (k : String) (v : Value) :
    getOpt (setk r k v) k = some v := by
  induction r with
  | nil => simp [setk, getOpt]
  | cons hd tl ih =>
    by_cases h : hd.1 = k
    · simp [setk, getOpt, h]
    · simp [setk, getOpt, h, ih]

theorem getOpt_setk_ne (r : RecordD) (k k' : String) (v : Value) (h : k ≠ k') :
    getOpt (setk r k v) k' = getOpt r k' := by
  induction r with
  | nil => simp [setk, getOpt, h]
  | cons hd tl ih =>
    by_cases h2 : hd.1 = k
    · simp [setk, getOpt, h2, h]
    · simp [setk, getOpt, h2, ih]

/-- The fourteen record fields written by `_transform_single`, in
assignment order. -/
def writtenKeys : List String :=
  ["post_text", "hashtags", "likes", "comments", "retweet_count", "view_count",
   "timestamp", "sentiment_label", "engagement_level", "word_count", "has_media",
   "mention_count", "url_count", "processed_at"]

theorem getOpt_buildRecord_frame (post : RecordD) (now txt tags : List Char)
    (likes comments retweets views : Int) (mc uc : Nat) (k : String)
    (h : ¬ k ∈ writtenKeys) :
    getOpt (buildRecord post now txt tags likes comments retweets views mc uc) k =
      getOpt post k := by
  simp only [writtenKeys, List.mem_cons, List.not_mem_nil, or_false] at h
  push_neg at h
  obtain ⟨h1, h2, h3, h4, h5, h6, h7, h8, h9, h10, h11, h12, h13, h14⟩ := h
  unfold buildRecord
  rw [getOpt_setk_ne _ _ _ _ (Ne.symm h14), getOpt_setk_ne _ _ _ _ (Ne.symm h13),
      getOpt_setk_ne _ _ _ _ (Ne.symm h12), getOpt_setk_ne _ _ _ _ (Ne.symm h11),
      getOpt_setk_ne _ _ _ _ (Ne.symm h10), getOpt_setk_ne _ _ _ _ (Ne.symm h9),
      getOpt_setk_ne _ _ _ _ (Ne.symm h8), getOpt_setk_ne _ _ _ _ (Ne.symm h7),
      getOpt_setk_ne _ _ _ _ (Ne.symm h6), getOpt_setk_ne _ _ _ _ (Ne.symm h5),
      getOpt_setk_ne _ _ _ _ (Ne.symm h4), getOpt_setk_ne _ _ _ _ (Ne.symm h3),
      getOpt_setk_ne _ _ _ _ (Ne.symm h2), getOpt_setk_ne _ _ _ _ (Ne.symm h1)]

theorem getOpt_buildRecord_likes (post : RecordD) (now txt tags : List Char)
    (likes comments retweets views : Int) (mc uc : Nat) :
    getOpt (buildRecord post now txt tags likes comments retweets views mc uc) "likes" =
      some (Value.vint likes) := by
  unfold buildRecord
  rw [getOpt_setk_ne _ _ _ _ (by decide), getOpt_setk_ne _ _ _ _ (by decide),
      getOpt_setk_ne _ _ _ _ (by decide), getOpt_setk_ne _ _ _ _ (by decide),
      getOpt_setk_ne _ _ _ _ (by decide), getOpt_setk_ne _ _ _ _ (by decide),
      getOpt_setk_ne _ _ _ _ (by decide), getOpt_setk_ne _ _ _ _ (by decide),
      getOpt_setk_ne _ _ _ _ (by decide), getOpt_setk_ne _ _ _ _ (by decide),
      getOpt_setk_ne _ _ _ _ (by decide), getOpt_setk_self]

theorem getOpt_buildRecord_comments (post : RecordD) (now txt tags : List Char)
    (likes comments retweets views : Int) (mc uc : Nat) :
    getOpt (buildRecord post now txt tags likes comments retweets views mc uc) "comments" =
      some (Value.vint comments) := by
  unfold buildRecord
  rw [getOpt_setk_ne _ _ _ _ (by decide), getOpt_setk_ne _ _ _ _ (by decide),
      getOpt_setk_ne _ _ _ _ (by decide), getOpt_setk_ne _ _ _ _ (by decide),
      getOpt_setk_ne _ _ _ _ (by decide), getOpt_setk_ne _ _ _ _ (by decide),
      getOpt_setk_ne _ _ _ _ (by decide), getOpt_setk_ne _ _ _ _ (by decide),
      getOpt_setk_ne _ _ _ _ (by decide), getOpt_setk_ne _ _ _ _ (by decide),
      getOpt_setk_self]

theorem getOpt_buildRecord_retweets (post : RecordD) (now txt tags : List Char)
    (likes comments retweets views : Int) (mc uc : Nat) :
    getOpt (buildRecord post now txt tags likes comments retweets views mc uc)
      "retweet_count" = some (Value.vint retweets) := by
  unfold buildRecord
  rw [getOpt_setk_ne _ _ _ _ (by decide), getOpt_setk_ne _ _ _ _ (by decide),
      getOpt_setk_ne _ _ _ _ (by decide), getOpt_setk_ne _ _ _ _ (by decide),
      getOpt_setk_ne _ _ _ _ (by decide), getOpt_setk_ne _ _ _ _ (by decide),
      getOpt_setk_ne _ _ _ _ (by decide), getOpt_setk_ne _ _ _ _ (by decide),
      getOpt_setk_ne _ _ _ _ (by decide), getOpt_setk_self]

theorem getOpt_buildRecord_views (post : RecordD) (now txt tags : List Char)
    (likes comments retweets views : Int) (mc uc : Nat) :
    getOpt (buildRecord post now txt tags likes comments retweets views mc uc)
      "view_count" = some (Value.vint views) := by
  unfold buildRecord
  rw [getOpt_setk_ne _ _ _ _ (by decide), getOpt_setk_ne _ _ _ _ (by decide),
      getOpt_setk_ne _ _ _ _ (by decide), getOpt_setk_ne _ _ _ _ (by decide),
      getOpt_setk_ne _ _ _ _ (by decide), getOpt_setk_ne _ _ _ _ (by decide),
      getOpt_setk_ne _ _ _ _ (by decide), getOpt_setk_ne _ _ _ _ (by decide),
      getOpt_setk_self]

theorem getOpt_buildRecord_post_text (post : RecordD) (now txt tags : List Char)
    (likes comments retweets views : Int) (mc uc : Nat) :
    getOpt (buildRecord post now txt tags likes comments retweets views mc uc)
      "post_text" = some (Value.vstr txt) := by
  unfold buildRecord
  rw [getOpt_setk_ne _ _ _ _ (by decide), getOpt_setk_ne _ _ _ _ (by decide),
      getOpt_setk_ne _ _ _ _ (by decide), getOpt_setk_ne _ _ _ _ (by decide),
      getOpt_setk_ne _ _ _ _ (by decide), getOpt_setk_ne _ _ _ _ (by decide),
      getOpt_setk_ne _ _ _ _ (by decide), getOpt_setk_ne _ _ _ _ (by decide),
      getOpt_setk_ne _ _ _ _ (by decide), getOpt_setk_ne _ _ _ _ (by decide),
      getOpt_setk_ne _ _ _ _ (by decide), getOpt_setk_ne _ _ _ _ (by decide),
      getOpt_setk_ne _ _ _ _ (by decide), getOpt_setk_self]

theorem getOpt_buildRecord_sentiment (post : RecordD) (now txt tags : List Char)
    (likes comments retweets views : Int) (mc uc : Nat) :
    getOpt (buildRecord post now txt tags likes comments retweets views mc uc)
      "sentiment_label" = some (Value.vstr (analyze_sentiment txt)) := by
  unfold buildRecord
  rw [getOpt_setk_ne _ _ _ _ (by decide), getOpt_setk_ne _ _ _ _ (by decide),
      getOpt_setk_ne _ _ _ _ (by decide), getOpt_setk_ne _ _ _ _ (by decide),
      getOpt_setk_ne _ _ _ _ (by decide), getOpt_setk_ne _ _ _ _ (by decide),
      getOpt_setk_self]

theorem getOpt_buildRecord_engagement (post : RecordD) (now txt tags : List Char)
    (likes comments retweets views : Int) (mc uc : Nat) :
    getOpt (buildRecord post now txt tags likes comments retweets views mc uc)
      "engagement_level" =
      some (Value.vstr (calculate_engagement likes comments
        (match getD post "platform" (Value.vstr "unknown".data) with
         | Value.vstr p => p
         | _ => "<non-string>".data))) := by
  unfold buildRecord
  rw [getOpt_setk_ne _ _ _ _ (by decide), getOpt_setk_ne _ _ _ _ (by decide),
      getOpt_setk_ne _ _ _ _ (by decide), getOpt_setk_ne _ _ _ _ (by decide),
      getOpt_setk_ne _ _ _ _ (by decide), getOpt_setk_self]

theorem getOpt_buildRecord_hashtags (post : RecordD) (now txt tags : List Char)
    (likes comments retweets views : Int) (mc uc : Nat) :
    getOpt (buildRecord post now txt tags likes comments retweets views mc uc)
      "hashtags" = some (Value.vstr tags) := by
  unfold buildRecord
  rw [getOpt_setk_ne _ _ _ _ (by decide), getOpt_setk_ne _ _ _ _ (by decide),
      getOpt_setk_ne _ _ _ _ (by decide), getOpt_setk_ne _ _ _ _ (by decide),
      getOpt_setk_ne _ _ _ _ (by decide), getOpt_setk_ne _ _ _ _ (by decide),
      getOpt_setk_ne _ _ _ _ (by decide), getOpt_setk_ne _ _ _ _ (by decide),
      getOpt_setk_ne _ _ _ _ (by decide), getOpt_setk_ne _ _ _ _ (by decide),
      getOpt_setk_ne _ _ _ _ (by decide), getOpt_setk_ne _ _ _ _ (by decide),
      getOpt_setk_self]

/-- Lemma: `_clean_text` applied to a string field value never raises and agrees
with the pure cleaner (the falsy check and `clean_text` both send the
empty string to itself). -/
theorem cleanTextV_vstr (s : List Char) :
    cleanTextV (Value.vstr s) = some (clean_text s) := by
  by_cases h : s = ([] : List Char)
  · subst h
    rfl
  · simp [cleanTextV, truthy, h]

/-- Lemma: `_normalize_hashtags` applied to a string field value never raises and
agrees with the pure normalizer. -/
theorem hashtagsV_vstr (s : List Char) :
    hashtagsV (Value.vstr s) = some (normalize_hashtags s) := by
  by_cases h : s = ([] : List Char)
  · subst h
    rfl
  · simp [hashtagsV, truthy, h]

/-- Inversion of the successful path of `_transform_single`. -/
theorem transform_single_ok_inv (post : RecordD) (now : List Char) (st : Stats)
    (r : RecordD) (st' : Stats)
    (h : transform_single post now st = (TResult.ok r, st')) :
    truthy (getD post "post_id" Value.none) = true ∧
    ∃ txt tags likes comments retweets views orig,
      cleanTextV (getD post "post_text" (Value.vstr [])) = some txt ∧
      hashtagsV (getD post "hashtags" (Value.vstr [])) = some tags ∧
      safe_int (getD post "likes" (Value.vint 0)) = some likes ∧
      safe_int (getD post "comments" (Value.vint 0)) = some comments ∧
      safe_int (getD post "retweet_count" (Value.vint 0)) = some retweets ∧
      safe_int (getD post "view_count" (Value.vint 0)) = some views ∧
      strArgV (getD post "post_text" (Value.vstr [])) = some orig ∧
      r = buildRecord post now txt tags likes comments retweets views
            (count_mentions orig) (count_urls orig) ∧
      st' = bumpSent st (analyze_sentiment txt) := by
  unfold transform_single at h
  split at h
  · exact absurd h (by simp)
  · rename_i hid
    split at h
    · exact absurd h (by simp)
    · rename_i txt htxt
      split at h
      · exact absurd h (by simp)
      · rename_i tags htags
        split at h
        · rename_i likes comments retweets views hl hc hr hv
          split at h
          · rename_i orig horig
            simp only [Prod.mk.injEq, TResult.ok.injEq] at h
            exact ⟨by simpa using hid,
              txt, tags, likes, comments, retweets, views, orig,
              htxt, htags, hl, hc, hr, hv, horig, h.1.symm, h.2.symm⟩
          · exact absurd h (by simp)
        · exact absurd h (by simp)

/-! ## Concrete inputs used by counterexamples and witnesses -/

/-- A fixed processing stamp standing for `datetime.now().isoformat()`. -/
def now0 : List Char :=
  "2025-01-01T00:00:00".data

/-- A minimal well-formed raw record. -/
def p1 : RecordD :=
  [("post_id", Value.vstr "a".data)]

/-- A second minimal well-formed raw record. -/
def p2 : RecordD :=
  [("post_id", Value.vstr "b".data)]

/-- A raw record with no `post_id` key. -/
def pbad : RecordD :=
  [("post_text", Value.vstr "x".data)]

/-- A raw record with a negative numeric string in `likes` and a
non-numeric `upvote_ratio`. -/
def cex2post : RecordD :=
  [("post_id", Value.vstr "p".data), ("likes", Value.vstr "-5".data),
   ("upvote_ratio", Value.vstr "abc".data)]

/-- The canonical record produced from `cex2post`. -/
def c2rec : RecordD :=
  okRec (transform_single cex2post now0 initStats).1

/-- The statistics produced alongside `c2rec`. -/
def c2st : Stats :=
  (transform_single cex2post now0 initStats).2

/-! ## C1 — missing `post_id` handling in the batch transform -/

/-- C1 counterexample: for the concrete batch `[p1, p2, pbad]` of three
raw records of which exactly `pbad` lacks `post_id` (and the other two
transform successfully), `transform` returns exactly 2 records but the
error counter stays 0, refuting the claimed `stats.errors == 1`. -/
theorem c1_counterexample :
    (transform [p1, p2, pbad] now0 initStats).1.length = 2 ∧
    (transform [p1, p2, pbad] now0 initStats).2.errors = 0 ∧
    ¬ (transform [p1, p2, pbad] now0 initStats).2.errors = 1 := by
  decide

/-- C1 (amended): a raw record whose `post_id` is absent or falsy is
dropped from the output of the batch transform without raising and
without touching the statistics — in particular the error counter is NOT
incremented for it; for the concrete batch of 3 raw records of which
exactly one lacks `post_id`, `transform` returns exactly 2 canonical
records and the statistics show `errors == 0`. -/
theorem c1_missing_post_id_dropped_silently :
    (∀ (post : RecordD) (now : List Char) (st : Stats),
      truthy (getD post "post_id" Value.none) = false →
      transform_single post now st = (TResult.skipped, st)) ∧
    (transform [p1, p2, pbad] now0 initStats).1.length = 2 ∧
    (transform [p1, p2, pbad] now0 initStats).2.errors = 0 := by
  refine ⟨fun post now st h => ?_, by decide, by decide⟩
  unfold transform_single
  rw [h]
  simp

/-- C1 witness: the amended drop rule applied to the concrete record
`pbad`, whose `post_id` lookup is falsy. -/
theorem c1_witness :
    transform_single pbad now0 initStats = (TResult.skipped, initStats) :=
  c1_missing_post_id_dropped_silently.1 pbad now0 initStats (by decide)

/-! ## C2 — types of the numeric fields after Transform -/

/-- C2 counterexample: transforming `cex2post` succeeds and produces
`likes = -5` (a negative integer, refuting non-negativity) and leaves the
non-numeric string `upvote_ratio = "abc"` untouched (refuting "every
numeric field ... never a non-numeric type"). -/
theorem c2_counterexample :
    isOk (transform_single cex2post now0 initStats).1 = true ∧
    getOpt c2rec "likes" = some (Value.vint (-5)) ∧
    (-5 : Int) < 0 ∧
    getOpt c2rec "upvote_ratio" = some (Value.vstr "abc".data) := by
  refine ⟨by decide, by decide, by decide, by decide⟩

/-- C2 (amended): for every raw record the Transform stage emits, the four
coerced numeric fields `likes`, `comments`, `retweet_count`, `view_count`
are always integers — never null and never a non-numeric type — but they
are not guaranteed non-negative (negative inputs pass through), and
`upvote_ratio` is not coerced at all: it is passed through with exactly
its raw value. -/
theorem c2_numeric_fields_are_integers (post : RecordD) (now : List Char)
    (st : Stats) (r : RecordD) (st' : Stats)
    (h : transform_single post now st = (TResult.ok r, st')) :
    (∃ n : Int, getOpt r "likes" = some (Value.vint n)) ∧
    (∃ n : Int, getOpt r "comments" = some (Value.vint n)) ∧
    (∃ n : Int, getOpt r "retweet_count" = some (Value.vint n)) ∧
    (∃ n : Int, getOpt r "view_count" = some (Value.vint n)) ∧
    getOpt r "upvote_ratio" = getOpt post "upvote_ratio" := by
  obtain ⟨-, txt, tags, likes, comments, retweets, views, orig,
    -, -, -, -, -, -, -, hr, -⟩ := transform_single_ok_inv post now st r st' h
  subst hr
  exact ⟨⟨likes, getOpt_buildRecord_likes ..⟩,
    ⟨comments, getOpt_buildRecord_comments ..⟩,
    ⟨retweets, getOpt_buildRecord_retweets ..⟩,
    ⟨views, getOpt_buildRecord_views ..⟩,
    getOpt_buildRecord_frame _ _ _ _ _ _ _ _ _ _ _ (by decide)⟩

/-- C2 witness: the amended typing guarantee applied to the concrete
record `cex2post`. -/
theorem c2_witness :
    (∃ n : Int, getOpt c2rec "likes" = some (Value.vint n)) ∧
    (∃ n : Int, getOpt c2rec "comments" = some (Value.vint n)) ∧
    (∃ n : Int, getOpt c2rec "retweet_count" = some (Value.vint n)) ∧
    (∃ n : Int, getOpt c2rec "view_count" = some (Value.vint n)) ∧
    getOpt c2rec "upvote_ratio" = getOpt cex2post "upvote_ratio" :=
  c2_numeric_fields_are_integers cex2post now0 initStats c2rec c2st (by decide)

/-! ## C10 — unknown raw fields pass through unchanged -/

/-- C10: the Record Normalizer passes unknown raw fields through
unchanged — for every raw record it accepts, every key that is not one of
the fourteen fields `_transform_single` writes keeps exactly its input
value in the emitted record. -/
theorem c10_unknown_fields_pass_through (post : RecordD) (now : List Char)
    (st : Stats) (r : RecordD) (st' : Stats) (k : String)
    (h : transform_single post now st = (TResult.ok r, st'))
    (hk : ¬ k ∈ writtenKeys) :
    getOpt r k = getOpt post k := by
  obtain ⟨-, txt, tags, likes, comments, retweets, views, orig,
    -, -, -, -, -, -, -, hr, -⟩ := transform_single_ok_inv post now st r st' h
  subst hr
  exact getOpt_buildRecord_frame _ _ _ _ _ _ _ _ _ _ _ hk

/-- C10 witness: the frame property applied to the concrete record
`cex2post` at its extra key `upvote_ratio` (and incidentally showing the
value is preserved verbatim). -/
theorem c10_witness :
    getOpt c2rec "upvote_ratio" = getOpt cex2post "upvote_ratio" :=
  c10_unknown_fields_pass_through cex2post now0 initStats c2rec c2st
    "upvote_ratio" (by decide) (by decide)

/-! ## C7 — the engagement classifier of the ETL transformer -/

/-- Tier selection as the specification words it: among the descending
candidate tiers `viral, high, medium`, the first whose threshold the score
meets or exceeds wins; below all three the tier is `low`. -/
def specTier (score : Int) (t : ThresholdsT) : List Char :=
  match [(t.viral, "viral".data), (t.high, "high".data),
         (t.medium, "medium".data)].filter (fun pr => pr.1 ≤ score) with
  | [] => "low".data
  | pr :: _ => pr.2

/-- Tier selection over a labeler threshold row, same specification rule. -/
def specTierU (score : Int) (t : ThresholdsU) : List Char :=
  match [(t.viral, "viral".data), (t.high, "high".data),
         (t.medium, "medium".data)].filter (fun pr => pr.1 ≤ score) with
  | [] => "low".data
  | pr :: _ => pr.2

theorem calculate_engagement_eq_specTier (likes comments : Int) (platform : List Char) :
    calculate_engagement likes comments platform =
      specTier (likes + comments * 3) (thresholdsFor platform) := by
  unfold calculate_engagement specTier
  by_cases h1 : (thresholdsFor platform).viral ≤ likes + comments * 3 <;>
    by_cases h2 : (thresholdsFor platform).high ≤ likes + comments * 3 <;>
      by_cases h3 : (thresholdsFor platform).medium ≤ likes + comments * 3 <;>
        simp [List.filter, h1, h2, h3]

theorem estimate_engagement_level_eq_specTierU (likes comments : Int) (platform : List Char) :
    DataLabeler.estimate_engagement_level likes comments platform =
      specTierU (likes + comments * 2)
        (match labelerThresholds.find? (fun kv => kv.1 = platform) with
         | some kv => kv.2
         | Option.none => ⟨50, 500, 5000⟩) := by
  unfold DataLabeler.estimate_engagement_level specTierU
  cases hfind : labelerThresholds.find? (fun kv => kv.1 = platform) with
  | none =>
    by_cases h1 : (500 : Int) ≤ likes + comments * 2 <;>
      by_cases h2 : (50 : Int) ≤ likes + comments * 2 <;>
        by_cases h3 : (5000 : Int) ≤ likes + comments * 2 <;>
          simp [hfind, List.filter, h1, h2, h3]
  | some kv =>
    by_cases h1 : kv.2.viral ≤ likes + comments * 2 <;>
      by_cases h2 : kv.2.high ≤ likes + comments * 2 <;>
        by_cases h3 : kv.2.medium ≤ likes + comments * 2 <;>
          simp [hfind, List.filter, h1, h2, h3]

/-- C7: the ETL engagement classifier looks up the platform's threshold
row (an unknown platform falls back to the twitter row), scores
`likes + comments * 3`, and returns the first tier from the top whose
threshold the score meets or exceeds, boundary-inclusive; in particular
`(0, 0, reddit)` is `low` and scores exactly at the reddit `medium`,
`high` and `viral` thresholds land on those tiers. -/
theorem c7_engagement_cascade :
    (∀ (likes comments : Int) (platform : List Char),
      calculate_engagement likes comments platform =
        specTier (likes + comments * 3) (thresholdsFor platform)) ∧
    (∀ platform : List Char,
      ENGAGEMENT_THRESHOLDS.find? (fun kv => kv.1 = platform) = Option.none →
      thresholdsFor platform = thresholdsFor "twitter".data) ∧
    calculate_engagement 0 0 "reddit".data = "low".data ∧
    calculate_engagement 100 0 "reddit".data = "medium".data ∧
    calculate_engagement 1000 0 "reddit".data = "high".data ∧
    calculate_engagement 10000 0 "reddit".data = "viral".data := by
  refine ⟨calculate_engagement_eq_specTier, fun platform h => ?_,
    by decide, by decide, by decide, by decide⟩
  unfold thresholdsFor
  rw [h]
  decide

/-- C7 witness: the cascade equation at concrete values and the fallback
at a platform absent from the threshold table. -/
theorem c7_witness :
    calculate_engagement 7 31 "reddit".data =
      specTier (7 + 31 * 3) (thresholdsFor "reddit".data) ∧
    thresholdsFor "myspace".data = thresholdsFor "twitter".data :=
  ⟨c7_engagement_cascade.1 7 31 "reddit".data,
   c7_engagement_cascade.2.1 "myspace".data (by decide)⟩

/-! ## C3 — the two engagement classifiers do not agree -/

/-- C3 counterexample: at `(likes, comments, platform) = (60, 0, twitter)`
the ETL transformer's classifier answers `low` while the labeling
utility's classifier answers `medium`, so the system does not compute
engagement with a single canonical comment weight and threshold table. -/
theorem c3_counterexample :
    calculate_engagement 60 0 "twitter".data = "low".data ∧
    DataLabeler.estimate_engagement_level 60 0 "twitter".data = "medium".data ∧
    calculate_engagement 60 0 "twitter".data ≠
      DataLabeler.estimate_engagement_level 60 0 "twitter".data := by
  refine ⟨by decide, by decide, by decide⟩

/-- C3 (amended): the two engagement call sites use different score
formulas over different threshold tables — the ETL transformer computes
`likes + comments * 3` against `ENGAGEMENT_THRESHOLDS`, the labeling
utility computes `likes + comments * 2` against its own table — and they
return different tier labels for some inputs (e.g. 60 likes, 0 comments
on twitter). -/
theorem c3_two_weights_disagree :
    (∀ (likes comments : Int) (platform : List Char),
      calculate_engagement likes comments platform =
        specTier (likes + comments * 3) (thresholdsFor platform)) ∧
    (∀ (likes comments : Int) (platform : List Char),
      DataLabeler.estimate_engagement_level likes comments platform =
        specTierU (likes + comments * 2)
          (match labelerThresholds.find? (fun kv => kv.1 = platform) with
           | some kv => kv.2
           | Option.none => ⟨50, 500, 5000⟩)) ∧
    calculate_engagement 60 0 "twitter".data ≠
      DataLabeler.estimate_engagement_level 60 0 "twitter".data :=
  ⟨calculate_engagement_eq_specTier, estimate_engagement_level_eq_specTierU, by decide⟩

/-! ## C8 — `_safe_int` coercion -/

/-- C8: the spec's examples hold — `"1,234"` coerces to 1234 after comma
stripping, `None`, the empty string and `"abc"` coerce to 0 — but the
coercion is NOT total: for the strings `"inf"` and `"-Infinity"`,
`float()` succeeds and `int()` raises `OverflowError`, which the
`except (ValueError, TypeError)` clause does not catch (modelled as
`Option.none`), so `_safe_int` raises out of its caller. -/
theorem c8_safe_int_behaviour :
    safe_int (Value.vstr "1,234".data) = some 1234 ∧
    safe_int Value.none = some 0 ∧
    safe_int (Value.vstr []) = some 0 ∧
    safe_int (Value.vstr "abc".data) = some 0 ∧
    safe_int (Value.vstr "inf".data) = Option.none ∧
    safe_int (Value.vstr "-Infinity".data) = Option.none := by
  refine ⟨by decide, by decide, by decide, by decide, by decide, by decide⟩

/-! ## C6 — the sentiment estimator -/

/-- The positive count as the claim words it: the size of the intersection
of the de-duplicated lower-cased word set with the positive lexicon, plus
positive-emoji occurrences. -/
def positiveCount (text : List Char) : Nat :=
  ((findWords (pyLower text)).dedup.filter (· ∈ POSITIVE_WORDS)).length +
    (findEmojis text).countP (fun r => decide (r ∈ positive_emojis))

/-- The negative count, symmetrically. -/
def negativeCount (text : List Char) : Nat :=
  ((findWords (pyLower text)).dedup.filter (· ∈ NEGATIVE_WORDS)).length +
    (findEmojis text).countP (fun r => decide (r ∈ negative_emojis))

theorem emoji_disj :
    positive_emojis.all (fun r => !(decide (r ∈ negative_emojis))) = true := by
  decide

theorem emojiTally_eq (runs : List (List Char)) (pc nc : Nat) :
    emojiTally runs pc nc =
      (pc + runs.countP (fun r => decide (r ∈ positive_emojis)),
       nc + runs.countP (fun r => decide (r ∈ negative_emojis))) := by
  induction runs generalizing pc nc with
  | nil => simp [emojiTally]
  | cons r rs ih =>
    have step : emojiTally (r :: rs) pc nc =
        emojiTally rs (if r ∈ positive_emojis then pc + 1 else pc)
          (if r ∈ positive_emojis then nc
           else if r ∈ negative_emojis then nc + 1 else nc) := by
      simp only [emojiTally, List.foldl_cons]
      by_cases hp : r ∈ positive_emojis
      · simp [hp]
      · by_cases hn : r ∈ negative_emojis <;> simp [hp, hn]
    rw [step, ih]
    by_cases hp : r ∈ positive_emojis
    · have hn : r ∉ negative_emojis := by
        have h2 := List.all_eq_true.mp emoji_disj r hp
        simpa using h2
      simp [hp, hn, List.countP_cons]
      omega
    · by_cases hn : r ∈ negative_emojis <;>
        (simp [hp, hn, List.countP_cons]; try omega)

theorem analyze_sentiment_rule (text : List Char) :
    analyze_sentiment text =
      (if negativeCount text < positiveCount text then "positive".data
       else if positiveCount text < negativeCount text then "negative".data
       else "neutral".data) := by
  by_cases h : text = []
  · subst h
    decide
  · unfold analyze_sentiment positiveCount negativeCount
    rw [if_neg h]
    simp only [emojiTally_eq]

/-- C6: the sentiment estimator implements the ordinal decision rule over
collapsed word sets plus emoji counts — positive iff the positive count
(de-duplicated lexicon hits plus positive-emoji occurrences) exceeds the
negative count, negative iff the reverse, neutral on a tie; the empty
string yields neutral; and the four spec examples hold. -/
theorem c6_sentiment_decision_rule :
    (∀ text : List Char,
      analyze_sentiment text =
        (if negativeCount text < positiveCount text then "positive".data
         else if positiveCount text < negativeCount text then "negative".data
         else "neutral".data)) ∧
    analyze_sentiment [] = "neutral".data ∧
    analyze_sentiment "I love this, amazing!".data = "positive".data ∧
    analyze_sentiment "this is terrible and awful".data = "negative".data ∧
    analyze_sentiment "the sky is blue".data = "neutral".data := by
  refine ⟨analyze_sentiment_rule, by decide, by decide, by decide, by decide⟩

/-! ## C9 — timestamp normalization -/

/-- C9 counterexample: the empty string matches none of the timestamp
format patterns, yet `_normalize_timestamp('')` returns `None` rather
than the original string — the falsy check precedes the string branch. -/
theorem c9_counterexample :
    normalize_timestamp (Value.vstr []) = Value.none ∧
    normalize_timestamp (Value.vstr []) ≠ Value.vstr [] := by
  refine ⟨by decide, by decide⟩

/-- C9 (amended): timestamp normalization never raises; a structured
datetime value is serialized to ISO-8601; a NON-EMPTY string takes the
first successful parse's ISO-8601 serialization among the ordered format
patterns or is returned unchanged when none match; falsy input (including
the empty string) yields null rather than the original value. -/
theorem c9_timestamp_fallback :
    (∀ d : PyDatetime, normalize_timestamp (Value.vdt d) = Value.vstr (isoformat d)) ∧
    (∀ s : List Char, s ≠ [] →
      normalize_timestamp (Value.vstr s) =
        (match tryFormats s with
         | some d => Value.vstr (isoformat d)
         | Option.none => Value.vstr s)) ∧
    normalize_timestamp (Value.vstr "2023-01-02 03:04:05".data) =
      Value.vstr "2023-01-02T03:04:05".data ∧
    normalize_timestamp (Value.vstr "2023-01-02T03:04:05Z".data) =
      Value.vstr "2023-01-02T03:04:05".data ∧
    normalize_timestamp (Value.vstr "2023-01-02T03:04:05.250Z".data) =
      Value.vstr "2023-01-02T03:04:05.250000".data ∧
    normalize_timestamp (Value.vstr "2023-01-02T03:04:05+05:30".data) =
      Value.vstr "2023-01-02T03:04:05+05:30".data ∧
    normalize_timestamp (Value.vstr "not-a-date".data) =
      Value.vstr "not-a-date".data := by
  refine ⟨fun d => by simp [normalize_timestamp, truthy],
    fun s h => by simp [normalize_timestamp, truthy, h],
    by decide, by decide, by decide, by decide, by decide⟩

/-- C9 witness: the string fallback rule applied at a concrete unparseable
nonempty string. -/
theorem c9_witness :
    normalize_timestamp (Value.vstr "x".data) =
      (match tryFormats "x".data with
       | some d => Value.vstr (isoformat d)
       | Option.none => Value.vstr "x".data) :=
  c9_timestamp_fallback.2.1 "x".data (by decide)

/-! ## Lemmas about `pyReplace`, `runsP` and whitespace normalization -/

theorem replFuel_id_of_not_occurs (pat repl : List Char) :
    ∀ (s : List Char) (fuel : Nat), occurs pat s = false →
      replFuel pat repl fuel s = s := by
  intro s
  induction s with
  | nil =>
    intro fuel _
    cases fuel <;> rfl
  | cons c cs ih =>
    intro fuel h
    cases fuel with
    | zero => rfl
    | succ fuel =>
      unfold occurs at h
      rw [Bool.or_eq_false_iff] at h
      unfold replFuel
      rw [if_neg (by simp [h.1]), ih fuel h.2]

theorem pyReplace_id_of_not_occurs (pat repl s : List Char)
    (h : occurs pat s = false) : pyReplace pat repl s = s :=
  replFuel_id_of_not_occurs pat repl s s.length h

theorem foldl_replace_id (subs : List (List Char × List Char)) (s : List Char)
    (h : ∀ pr ∈ subs, occurs pr.1 s = false) :
    subs.foldl (fun t pr => pyReplace pr.1 pr.2 t) s = s := by
  induction subs with
  | nil => rfl
  | cons pr rest ih =>
    simp only [List.foldl_cons]
    rw [pyReplace_id_of_not_occurs _ _ _ (h pr (List.mem_cons_self pr rest))]
    exact ih fun q hq => h q (List.mem_cons_of_mem pr hq)

theorem runsAux_elems (p : Char → Bool) :
    ∀ (s acc : List Char), (∀ c ∈ acc, p c = true) →
      ∀ w ∈ runsAux p s acc, w ≠ [] ∧ ∀ c ∈ w, p c = true := by
  intro s
  induction s with
  | nil =>
    intro acc hacc w hw
    unfold runsAux at hw
    split at hw
    · simp at hw
    · rename_i hne
      simp only [List.mem_singleton] at hw
      subst hw
      exact ⟨by simpa using hne, fun c hc => hacc c (List.mem_reverse.mp hc)⟩
  | cons c cs ih =>
    intro acc hacc w hw
    unfold runsAux at hw
    by_cases hp : p c = true
    · rw [if_pos hp] at hw
      exact ih (c :: acc) (by
        intro d hd
        rcases List.mem_cons.mp hd with rfl | hd
        · exact hp
        · exact hacc d hd) w hw
    · rw [if_neg hp] at hw
      by_cases hacc0 : acc = ([] : List Char)
      · rw [if_pos hacc0] at hw
        exact ih [] (by simp) w hw
      · rw [if_neg hacc0] at hw
        rcases List.mem_cons.mp hw with rfl | hw
        · exact ⟨by simpa using hacc0, fun d hd => hacc d (List.mem_reverse.mp hd)⟩
        · exact ih [] (by simp) w hw

theorem runsAux_append (p : Char → Bool) (w : List Char)
    (hw : ∀ c ∈ w, p c = true) :
    ∀ (s acc : List Char), runsAux p (w ++ s) acc = runsAux p s (w.reverse ++ acc) := by
  induction w with
  | nil => intro s acc; simp
  | cons c w' ih =>
    intro s acc
    have hc : p c = true := hw c (List.mem_cons_self c w')
    have hw' : ∀ d ∈ w', p d = true := fun d hd => hw d (List.mem_cons_of_mem c hd)
    simp only [List.cons_append]
    conv_lhs => unfold runsAux
    rw [if_pos hc, ih hw' s (c :: acc)]
    congr 1
    simp

theorem pySplit_pyJoin (ws : List (List Char))
    (h : ∀ w ∈ ws, w ≠ [] ∧ ∀ c ∈ w, isWs c = false) :
    pySplit (pyJoin ws) = ws := by
  induction ws with
  | nil => rfl
  | cons w ws ih =>
    have hw := h w (List.mem_cons_self w ws)
    have hwp : ∀ c ∈ w, (!isWs c) = true := fun c hc => by simp [hw.2 c hc]
    cases ws with
    | nil =>
      show runsAux _ w [] = [w]
      have := runsAux_append (fun c => !isWs c) w hwp [] []
      rw [List.append_nil] at this
      rw [this]
      unfold runsAux
      rw [List.append_nil, if_neg (by simpa using hw.1)]
      simp
    | cons x xs =>
      show runsAux _ (w ++ ' ' :: pyJoin (x :: xs)) [] = w :: x :: xs
      rw [runsAux_append (fun c => !isWs c) w hwp (' ' :: pyJoin (x :: xs)) []]
      unfold runsAux
      rw [if_neg (by simp [isWs]), List.append_nil,
        if_neg (by simpa using hw.1)]
      simp only [List.reverse_reverse]
      have ihx := ih fun v hv => h v (List.mem_cons_of_mem w hv)
      exact congrArg (w :: ·) ihx

theorem pySplit_elems (s : List Char) :
    ∀ w ∈ pySplit s, w ≠ [] ∧ ∀ c ∈ w, isWs c = false := by
  intro w hw
  have := runsAux_elems (fun c => !isWs c) s [] (by simp) w hw
  exact ⟨this.1, fun c hc => by simpa using this.2 c hc⟩

theorem normWs_idem (s : List Char) : normWs (normWs s) = normWs s := by
  unfold normWs
  rw [pySplit_pyJoin (pySplit s) (pySplit_elems s)]

theorem pyJoin_head (ws : List (List Char))
    (h : ∀ w ∈ ws, w ≠ [] ∧ ∀ c ∈ w, isWs c = false) (hne : ws ≠ []) :
    ∃ c t, pyJoin ws = c :: t ∧ isWs c = false := by
  cases ws with
  | nil => exact absurd rfl hne
  | cons w ws =>
    have hw := h w (List.mem_cons_self w ws)
    obtain ⟨c, w', rfl⟩ := List.exists_cons_of_ne_nil hw.1
    have hc : isWs c = false := hw.2 c (List.mem_cons_self c w')
    cases ws with
    | nil => exact ⟨c, w', rfl, hc⟩
    | cons x xs => exact ⟨c, w' ++ ' ' :: pyJoin (x :: xs), rfl, hc⟩

theorem pyJoin_rev_head (ws : List (List Char))
    (h : ∀ w ∈ ws, w ≠ [] ∧ ∀ c ∈ w, isWs c = false) (hne : ws ≠ []) :
    ∃ c t, (pyJoin ws).reverse = c :: t ∧ isWs c = false := by
  induction ws with
  | nil => exact absurd rfl hne
  | cons w ws ih =>
    have hw := h w (List.mem_cons_self w ws)
    cases ws with
    | nil =>
      obtain ⟨c, t, hct⟩ := List.exists_cons_of_ne_nil
        (by simpa using hw.1 : w.reverse ≠ ([] : List Char))
      refine ⟨c, t, hct, hw.2 c ?_⟩
      have : c ∈ w.reverse := by rw [hct]; exact List.mem_cons_self c t
      exact List.mem_reverse.mp this
    | cons x xs =>
      obtain ⟨c, t, hct, hc⟩ := ih (fun v hv => h v (List.mem_cons_of_mem w hv))
        (by simp)
      refine ⟨c, t ++ ' ' :: w.reverse, ?_, hc⟩
      show (w ++ ' ' :: pyJoin (x :: xs)).reverse = _
      rw [List.reverse_append, List.reverse_cons, hct]
      simp

theorem pyStrip_normWs (s : List Char) : pyStrip (normWs s) = normWs s := by
  unfold normWs
  by_cases hne : pySplit s = ([] : List (List Char))
  · rw [hne]
    rfl
  · obtain ⟨c, t, hct, hc⟩ := pyJoin_head (pySplit s) (pySplit_elems s) hne
    obtain ⟨c2, t2, hct2, hc2⟩ := pyJoin_rev_head (pySplit s) (pySplit_elems s) hne
    unfold pyStrip
    rw [hct, List.dropWhile_cons, if_neg (by simp [hc]), ← hct, hct2,
      List.dropWhile_cons, if_neg (by simp [hc2]), ← hct2, List.reverse_reverse]

/-! ## C4 — idempotence of text cleaning -/

/-- The patterns replaced by `_clean_text`, in application order. -/
def cleanPats : List (List Char) :=
  (entitySubs ++ unicodeSubs).map Prod.fst

/-- The patterns replaced by `TextProcessor.clean`, in application order. -/
def utilsPats : List (List Char) :=
  CHAR_REPLACEMENTS.map Prod.fst

/-- No pattern of `pats` occurs as a substring of `s`. -/
def noOccur (pats : List (List Char)) (s : List Char) : Bool :=
  pats.all fun p => !occurs p s

theorem noOccur_elim {pats : List (List Char)} {s : List Char}
    (h : noOccur pats s = true) {p : List Char} (hp : p ∈ pats) :
    occurs p s = false := by
  have := List.all_eq_true.mp h p hp
  simpa using this

theorem clean_text_eq (x : List Char) (hx : x ≠ []) :
    clean_text x =
      pyStrip (normWs ((entitySubs ++ unicodeSubs).foldl
        (fun s pr => pyReplace pr.1 pr.2 s) x)) := by
  unfold clean_text
  rw [if_neg hx]

theorem utils_clean_eq (x : List Char) (hx : x ≠ []) :
    TextProcessor.clean x =
      pyStrip (normWs (CHAR_REPLACEMENTS.foldl
        (fun s pr => pyReplace pr.1 pr.2 s) x)) := by
  unfold TextProcessor.clean
  rw [if_neg hx]

/-- C4 counterexample: the cascade `&amp;amp;` cleans to `&amp;` in one
pass and to `&` in two, so `_clean_text` is not idempotent; the
`TextProcessor.clean` variant likewise fails on `©` (whose replacement
text contains `©` again). -/
theorem c4_counterexample :
    clean_text "&amp;amp;".data = "&amp;".data ∧
    clean_text (clean_text "&amp;amp;".data) = "&".data ∧
    clean_text (clean_text "&amp;amp;".data) ≠ clean_text "&amp;amp;".data ∧
    TextProcessor.clean (TextProcessor.clean ['©']) ≠
      TextProcessor.clean ['©'] := by
  refine ⟨by decide, by decide, by decide, by decide⟩

/-- C4 (amended): text cleaning is idempotent exactly on the inputs whose
first-pass output contains no replaced pattern: for every string `x`, if
none of the replacement source patterns occurs in `clean(x)`, then
`clean(clean(x)) = clean(x)` — the counterexample shows the unconditional
claim fails when entity decoding cascades (`'&amp;amp;'` for
`_clean_text`, `'©'` for `TextProcessor.clean`). -/
theorem c4_clean_conditionally_idempotent :
    (∀ x : List Char, noOccur cleanPats (clean_text x) = true →
      clean_text (clean_text x) = clean_text x) ∧
    (∀ x : List Char, noOccur utilsPats (TextProcessor.clean x) = true →
      TextProcessor.clean (TextProcessor.clean x) = TextProcessor.clean x) := by
  constructor
  · intro x h
    by_cases hx : x = ([] : List Char)
    · subst hx
      rfl
    · have hy : clean_text x =
          normWs ((entitySubs ++ unicodeSubs).foldl
            (fun s pr => pyReplace pr.1 pr.2 s) x) := by
        rw [clean_text_eq x hx, pyStrip_normWs]
      by_cases hy0 : clean_text x = ([] : List Char)
      · rw [hy0]
        rfl
      · rw [clean_text_eq (clean_text x) hy0]
        rw [foldl_replace_id _ _ (fun pr hpr =>
          noOccur_elim h (List.mem_map_of_mem Prod.fst hpr))]
        rw [hy, normWs_idem, pyStrip_normWs]
  · intro x h
    by_cases hx : x = ([] : List Char)
    · subst hx
      rfl
    · have hy : TextProcessor.clean x =
          normWs (CHAR_REPLACEMENTS.foldl
            (fun s pr => pyReplace pr.1 pr.2 s) x) := by
        rw [utils_clean_eq x hx, pyStrip_normWs]
      by_cases hy0 : TextProcessor.clean x = ([] : List Char)
      · rw [hy0]
        rfl
      · rw [utils_clean_eq (TextProcessor.clean x) hy0]
        rw [foldl_replace_id _ _ (fun pr hpr =>
          noOccur_elim h (List.mem_map_of_mem Prod.fst hpr))]
        rw [hy, normWs_idem, pyStrip_normWs]

/-- C4 witness: conditional idempotence applied to concrete pattern-free
inputs for both cleaners. -/
theorem c4_witness :
    clean_text (clean_text "hello   world".data) = clean_text "hello   world".data ∧
    TextProcessor.clean (TextProcessor.clean "hello   world".data) =
      TextProcessor.clean "hello   world".data :=
  ⟨c4_clean_conditionally_idempotent.1 "hello   world".data (by decide),
   c4_clean_conditionally_idempotent.2 "hello   world".data (by decide)⟩

/-! ## C5 — stability of derived labels under re-transformation -/

/-- A raw record whose text cleans to `"ba&amp;#x200B;d"` on the first
pass and to `"bad"` on the second (the entity cascade of C4). -/
def cex5post : RecordD :=
  [("post_id", Value.vstr "1".data),
   ("post_text", Value.vstr "ba&amp;amp;#x200B;d".data)]

/-- The canonical record of the first transformation pass on `cex5post`. -/
def c5rec1 : RecordD :=
  okRec (transform_single cex5post now0 initStats).1

/-- The canonical record of the second pass, on `c5rec1` itself. -/
def c5rec2 : RecordD :=
  okRec (transform_single c5rec1 now0 initStats).1

/-- C5 counterexample: re-normalizing the canonical record produced from
`cex5post` flips its `sentiment_label` from `neutral` to `negative`,
because the second cleaning pass turns `"ba&amp;#x200B;d"` into `"bad"`,
a negative-lexicon word. -/
theorem c5_counterexample :
    isOk (transform_single cex5post now0 initStats).1 = true ∧
    isOk (transform_single c5rec1 now0 initStats).1 = true ∧
    getOpt c5rec1 "sentiment_label" = some (Value.vstr "neutral".data) ∧
    getOpt c5rec2 "sentiment_label" = some (Value.vstr "negative".data) ∧
    getOpt c5rec2 "sentiment_label" ≠ getOpt c5rec1 "sentiment_label" := by
  refine ⟨by decide, by decide, by decide, by decide, by decide⟩

/-- C5 (amended): re-running the normalization steps on a canonical record
always succeeds and yields the same `engagement_level`; it also yields the
same `sentiment_label` whenever the record's cleaned `post_text` is a
fixed point of the text cleaner — but not in general, since cleaning is
not idempotent (see C4): the entity cascade of the counterexample changes
the sentiment label on the second pass. -/
theorem c5_labels_round_trip (post : RecordD) (now now' : List Char)
    (st st2 : Stats) (r : RecordD) (st' : Stats)
    (h : transform_single post now st = (TResult.ok r, st')) :
    ∃ r' st3, transform_single r now' st2 = (TResult.ok r', st3) ∧
      getOpt r' "engagement_level" = getOpt r "engagement_level" ∧
      (∀ s : List Char, getOpt r "post_text" = some (Value.vstr s) →
        clean_text s = s →
        getOpt r' "sentiment_label" = getOpt r "sentiment_label") := by
  obtain ⟨hid, txt, tags, likes, comments, retweets, views, orig,
    htxt, htags, hl, hc, hr, hv, horig, hrec, hst⟩ :=
    transform_single_ok_inv post now st r st' h
  subst hrec
  have e1 : getD (buildRecord post now txt tags likes comments retweets views
      (count_mentions orig) (count_urls orig)) "post_id" Value.none =
      getD post "post_id" Value.none := by
    unfold getD
    rw [getOpt_buildRecord_frame _ _ _ _ _ _ _ _ _ _ _ (by decide)]
  have e2 : getD (buildRecord post now txt tags likes comments retweets views
      (count_mentions orig) (count_urls orig)) "post_text" (Value.vstr []) =
      Value.vstr txt := by
    unfold getD
    rw [getOpt_buildRecord_post_text]
    rfl
  have e3 : getD (buildRecord post now txt tags likes comments retweets views
      (count_mentions orig) (count_urls orig)) "hashtags" (Value.vstr []) =
      Value.vstr tags := by
    unfold getD
    rw [getOpt_buildRecord_hashtags]
    rfl
  have e4 : getD (buildRecord post now txt tags likes comments retweets views
      (count_mentions orig) (count_urls orig)) "likes" (Value.vint 0) =
      Value.vint likes := by
    unfold getD
    rw [getOpt_buildRecord_likes]
    rfl
  have e5 : getD (buildRecord post now txt tags likes comments retweets views
      (count_mentions orig) (count_urls orig)) "comments" (Value.vint 0) =
      Value.vint comments := by
    unfold getD
    rw [getOpt_buildRecord_comments]
    rfl
  have e6 : getD (buildRecord post now txt tags likes comments retweets views
      (count_mentions orig) (count_urls orig)) "retweet_count" (Value.vint 0) =
      Value.vint retweets := by
    unfold getD
    rw [getOpt_buildRecord_retweets]
    rfl
  have e7 : getD (buildRecord post now txt tags likes comments retweets views
      (count_mentions orig) (count_urls orig)) "view_count" (Value.vint 0) =
      Value.vint views := by
    unfold getD
    rw [getOpt_buildRecord_views]
    rfl
  have eplat : getD (buildRecord post now txt tags likes comments retweets views
      (count_mentions orig) (count_urls orig)) "platform"
        (Value.vstr "unknown".data) =
      getD post "platform" (Value.vstr "unknown".data) := by
    unfold getD
    rw [getOpt_buildRecord_frame _ _ _ _ _ _ _ _ _ _ _ (by decide)]
  have hrun : transform_single (buildRecord post now txt tags likes comments
      retweets views (count_mentions orig) (count_urls orig)) now' st2 =
      (TResult.ok (buildRecord (buildRecord post now txt tags likes comments
          retweets views (count_mentions orig) (count_urls orig)) now'
        (clean_text txt) (normalize_hashtags tags) likes comments retweets views
        (count_mentions txt) (count_urls txt)),
       bumpSent st2 (analyze_sentiment (clean_text txt))) := by
    unfold transform_single
    rw [e1, e2, e3, e4, e5, e6, e7, cleanTextV_vstr, hashtagsV_vstr, hid]
    simp [safe_int, strArgV]
  refine ⟨_, _, hrun, ?_, ?_⟩
  · rw [getOpt_buildRecord_engagement, getOpt_buildRecord_engagement, eplat]
  · intro s hs hclean
    rw [getOpt_buildRecord_post_text] at hs
    simp only [Option.some.injEq, Value.vstr.injEq] at hs
    subst hs
    rw [getOpt_buildRecord_sentiment, getOpt_buildRecord_sentiment, hclean]

/-- A minimal accepted raw record for the C5 witness. -/
def c5post : RecordD :=
  [("post_id", Value.vstr "1".data)]

/-- The canonical record of the transformation pass on `c5post`. -/
def c5rec : RecordD :=
  okRec (transform_single c5post now0 initStats).1

/-- The statistics produced alongside `c5rec`. -/
def c5st : Stats :=
  (transform_single c5post now0 initStats).2

/-- C5 witness: the amended round-trip guarantee applied to the concrete
accepted record `c5post`. -/
theorem c5_witness :
    ∃ r' st3, transform_single c5rec now0 initStats = (TResult.ok r', st3) ∧
      getOpt r' "engagement_level" = getOpt c5rec "engagement_level" ∧
      (∀ s : List Char, getOpt c5rec "post_text" = some (Value.vstr s) →
        clean_text s = s →
        getOpt r' "sentiment_label" = getOpt c5rec "sentiment_label") :=
  c5_labels_round_trip c5post now0 now0 initStats initStats c5rec c5st (by decide)

end SocialETL
